import Mathlib

/-
  Shallow embedding of src/tvjuke.py (andrewjbe/tv-jukebox).

  The program is a button-driven video jukebox: it reads key events from an
  input device, classifies press durations, keeps mode flags
  (welcome_looping / shuffle_all / current_show), and drives a single child
  playback process.  We embed the configuration table, the press classifier
  (the duration branches of run_jukebox), the process-handle bookkeeping of
  stop_current_video / play_video, the episode selection of next_episode,
  handle_key_press, the event loop body of run_jukebox, the monitor thread
  body of monitor_video_end, and the restart wrapper main.

  Modelling conventions:
  - timestamps and durations are exact rationals (time.time() floats);
  - child processes are pids 0,1,2,...; `alive` is the set of live pids and
    `poll() is None` is membership in `alive`;
  - the filesystem library is a list of (show directory, playable files);
    an episode is the pair (show, file), mirroring the full path
    shows/<show>/<file> whose show directory makes episodes of distinct
    shows distinct;
  - random.choice over a non-empty list is indexing by a supplied natural
    number modulo the length;
  - launching cvlc is recorded in a `played` log (media, osd message, loop
    flag); the marquee/display options of the cvlc command line belong to
    the external playback engine and are not modelled.
-/

namespace TVJuke

/-- A key binding from KEY_MAP: either the reserved SKIP entry or a
short/long show pair. -/
inductive Binding where
  | skipKey : Binding
  | showPair (short : String) (long : String) : Binding
deriving Repr, DecidableEq

/-- KEY_MAP from tvjuke.py lines 22-31. -/
def KEY_MAP : List (Nat × Binding) := [
  (2, Binding.showPair "The Simpsons" "Futurama"),
  (3, Binding.showPair "King of the Hill" "American Dad"),
  (4, Binding.showPair "Cheers" "MASH"),
  (5, Binding.showPair "Sex and the City" "Joe Pera Talks to You"),
  (6, Binding.skipKey),
  (7, Binding.showPair "Music" "Documentaries"),
  (8, Binding.showPair "Jeopardy" "Match Game"),
  (9, Binding.showPair "Seinfeld" "It\x27s Always Sunny in Philadelphia")]

def SKIP_KEY_CODE : Nat := 6

/-- LONG_PRESS_SECONDS = 0.75 (tvjuke.py line 34). -/
def LONG_PRESS_SECONDS : ℚ := 3 / 4

/-- LONGER_PRESS_SECONDS = 2 (tvjuke.py line 35). -/
def LONGER_PRESS_SECONDS : ℚ := 2

/-- Duration tier of a SKIP press. -/
inductive PressClass where
  | short
  | long
  | veryLong
deriving Repr, DecidableEq

/-- The duration branches of run_jukebox for the SKIP key (lines 270-282):
`duration >= LONGER_PRESS_SECONDS` is very long, else
`duration >= LONG_PRESS_SECONDS` is long, else short. -/
def classify_skip (duration : ℚ) : PressClass :=
  if LONGER_PRESS_SECONDS ≤ duration then PressClass.veryLong
  else if LONG_PRESS_SECONDS ≤ duration then PressClass.long
  else PressClass.short

/-- The non-skip duration test of run_jukebox line 292:
`long_press = duration >= LONG_PRESS_SECONDS`. -/
def long_press (duration : ℚ) : Bool := LONG_PRESS_SECONDS ≤ duration

/-- Child-process bookkeeping: pids handed out so far, the set of live pids,
and the global `current_process` (some pid, or none). -/
structure ProcState where
  nextPid : Nat
  alive : List Nat
  current_process : Option Nat
deriving Repr, DecidableEq

def procInit : ProcState := ⟨0, [], none⟩

/-- stop_current_video (lines 81-91): if a current process exists and is
still running, terminate it (waiting up to 2 s, then kill) so that it is
dead afterwards either way; in every case set current_process to None. -/
def stop_current_video (s : ProcState) : ProcState :=
  let alive2 :=
    match s.current_process with
    | some p => if p ∈ s.alive then s.alive.erase p else s.alive
    | none => s.alive
  { s with alive := alive2, current_process := none }

/-- The process-spawning core of play_video (lines 93-123): first
stop_current_video, then Popen a fresh child and store it in
current_process. -/
def play_video (s : ProcState) : ProcState :=
  let s2 := stop_current_video s
  { nextPid := s2.nextPid + 1,
    alive := s2.nextPid :: s2.alive,
    current_process := some s2.nextPid }

/-- Invariant of reachable process states: the live set is empty or exactly
the current process. -/
def ProcInv (s : ProcState) : Prop :=
  s.alive = [] ∨ ∃ p, s.alive = [p] ∧ s.current_process = some p

/-- A session-level operation on the playback process. -/
inductive SessionOp where
  | start
  | stop
deriving Repr, DecidableEq

def applySessionOp (s : ProcState) : SessionOp → ProcState
  | SessionOp.start => play_video s
  | SessionOp.stop => stop_current_video s

/-- A media file as (directory, filename): episodes are (show, file),
mirroring full paths shows/<show>/<file>. -/
abbrev MediaRef := String × String

/-- The shows directory: each show subdirectory with the playable files
found under it by the walk in get_episodes. -/
abbrev Lib := List (String × List String)

/-- get_episodes (lines 72-79): the playable files found under the named
show directory, as (show, file) pairs; an unknown show has no files. -/
def get_episodes (lib : Lib) (sh : String) : List MediaRef :=
  ((lib.lookup sh).getD []).map (fun f => (sh, f))

/-- The all_eps accumulation of next_episode lines 151-155: concatenate
get_episodes over every show directory. -/
def all_episodes (lib : Lib) : List MediaRef :=
  lib.flatMap (fun se => get_episodes lib se.1)

/-- random.choice modelled by a supplied index, taken modulo the list
length; none exactly on the empty list. -/
def choice {α : Type} (n : Nat) (l : List α) : Option α := l[n % l.length]?

/-- One recorded launch of the player: the media file, the osd_message
argument, and the loop flag of play_video. -/
structure PlayEntry where
  media : MediaRef
  osd : Option String
  loop : Bool
deriving Repr, DecidableEq

/-- The global mutable state of tvjuke.py (lines 37-45), plus the
observation logs `played` (each play_video launch) and `diags` (each
"Unknown key code" diagnostic of handle_key_press). -/
structure JState where
  procs : ProcState
  played : List PlayEntry
  shuffle_all : Bool
  current_show : Option String
  welcome_looping : Bool
  exit_requested : Bool
  diags : List Nat
deriving Repr, DecidableEq

/-- The module-level initial values of the globals (lines 37-45). -/
def jInit : JState :=
  { procs := procInit, played := [], shuffle_all := false,
    current_show := none, welcome_looping := false,
    exit_requested := false, diags := [] }

/-- play_video at the jukebox level (lines 93-123): stop the previous
process, spawn the player on the given media, and log the launch. -/
def play_videoJ (media : MediaRef) (osd : Option String) (loop : Bool)
    (j : JState) : JState :=
  { j with procs := play_video j.procs,
           played := j.played ++ [⟨media, osd, loop⟩] }

/-- next_episode (lines 147-163): in shuffle_all mode pick a random
episode from the union of all shows (osd defaulting to
"|SHUFFLE| ALL SHOWS"); otherwise, with a current show, pick from that
show (osd defaulting to "|SHUFFLE| <show>"); play nothing when the
relevant pool is empty or neither mode is set. -/
def next_episode (lib : Lib) (n : Nat) (osd : Option String)
    (j : JState) : JState :=
  if j.shuffle_all then
    match choice n (all_episodes lib) with
    | some ep => play_videoJ ep (some (osd.getD "|SHUFFLE| ALL SHOWS")) false j
    | none => j
  else
    match j.current_show with
    | some sh =>
      match choice n (get_episodes lib sh) with
      | some ep =>
        play_videoJ ep (some (osd.getD ("|SHUFFLE| " ++ sh))) false j
      | none => j
    | none => j

/-- handle_key_press (lines 187-209): unknown codes log a diagnostic;
the SKIP mapping returns; otherwise pick the short or long show by press
duration, clear welcome_looping and shuffle_all, set current_show, and
play the next episode. -/
def handle_key_press (lib : Lib) (n : Nat) (code : Nat) (lp : Bool)
    (j : JState) : JState :=
  match KEY_MAP.lookup code with
  | none => { j with diags := j.diags ++ [code] }
  | some Binding.skipKey => j
  | some (Binding.showPair sh lo) =>
    let chosen := if lp then lo else sh
    next_episode lib n none
      { j with welcome_looping := false, current_show := some chosen,
               shuffle_all := false }

/-- One poll iteration of monitor_video_end (lines 177-185): while no exit
is requested, if the current process exists, has exited, and the welcome
loop is not running, start the next episode. -/
def monitor_video_end_tick (lib : Lib) (n : Nat) (j : JState) : JState :=
  if j.exit_requested then j
  else
    match j.procs.current_process with
    | none => j
    | some p =>
      if p ∈ j.procs.alive then j
      else if j.welcome_looping then j
      else next_episode lib n none j

/-- One input event as consumed by the read loop of run_jukebox: whether it is
an EV_KEY event, its code and value (1 down / 0 up), the wall-clock time
when it is processed, and the random index consumed if a video is
picked. -/
structure Ev where
  isKey : Bool
  code : Nat
  value : Nat
  time : ℚ
  rand : Nat
deriving Repr, DecidableEq

/-- Local state of the read loop of run_jukebox: the globals, the SKIP
down-time, the per-key down-time dict, and whether the loop has
broken. -/
structure LoopState where
  j : JState
  skip_pressed_time : Option ℚ
  key_pressed_times : List (Nat × ℚ)
  broke : Bool
deriving Repr, DecidableEq

/-- Dict assignment key_pressed_times[code] = t. -/
def record_key_time (code : Nat) (t : ℚ) (m : List (Nat × ℚ)) :
    List (Nat × ℚ) :=
  (code, t) :: m.filter (fun p => p.1 != code)

/-- Dict key_pressed_times.pop(code, None): the looked-up value and the
dict without the key. -/
def pop_key_time (code : Nat) (m : List (Nat × ℚ)) :
    Option ℚ × List (Nat × ℚ) :=
  (m.lookup code, m.filter (fun p => p.1 != code))

/-- The body of the run_jukebox loop `for event in dev.read_loop()` (lines
250-293), one event at a time.  A broken loop ignores further events; an
iteration that sees exit_requested stops the video and breaks.  Key-down
events record timestamps (a recorded 0.0 timestamp is falsy in python and
is treated below like an absent one); SKIP release classifies the held
duration into the three tiers; other releases call handle_key_press with
the boolean long-press test. -/
def loop_step (lib : Lib) (ls : LoopState) (e : Ev) : LoopState :=
  if ls.broke then ls
  else if ls.j.exit_requested then
    { ls with j := { ls.j with procs := stop_current_video ls.j.procs },
              broke := true }
  else if e.isKey && (KEY_MAP.lookup e.code).isSome then
    if e.value = 1 then
      if e.code = SKIP_KEY_CODE then
        { ls with skip_pressed_time := some e.time }
      else
        { ls with key_pressed_times :=
            record_key_time e.code e.time ls.key_pressed_times }
    else if e.value = 0 then
      if e.code = SKIP_KEY_CODE then
        match ls.skip_pressed_time with
        | some t =>
          if t ≠ 0 then
            let ls2 := { ls with skip_pressed_time := none }
            match classify_skip (e.time - t) with
            | PressClass.veryLong =>
              let j2 := { ls2.j with shuffle_all := false, current_show := none, exit_requested := true, procs := stop_current_video ls2.j.procs }
              { ls2 with j := j2 }
            | PressClass.long =>
              let j2 := { ls2.j with shuffle_all := true, current_show := none, welcome_looping := false }
              let j3 := next_episode lib e.rand (some "|SHUFFLE| ALL SHOWS") j2
              { ls2 with j := j3 }
            | PressClass.short =>
              if ls2.j.shuffle_all then
                let j3 := next_episode lib e.rand (some "|SHUFFLE| ALL SHOWS") ls2.j
                { ls2 with j := j3 }
              else
                match ls2.j.current_show with
                | some sh =>
                  let j3 := next_episode lib e.rand (some ("|SHUFFLE| " ++ sh)) ls2.j
                  { ls2 with j := j3 }
                | none => ls2
          else ls
        | none => ls
      else
        let pt := pop_key_time e.code ls.key_pressed_times
        match pt.1 with
        | some t =>
          if t ≠ 0 then
            { ls with key_pressed_times := pt.2,
                      j := handle_key_press lib e.rand e.code
                        (long_press (e.time - t)) ls.j }
          else { ls with key_pressed_times := pt.2 }
        | none => { ls with key_pressed_times := pt.2 }
    else ls
  else ls

/-- The per-session reset at the top of run_jukebox (lines 219-222),
including the flag set by start_welcome_loop. -/
def session_reset (j : JState) : JState :=
  { j with exit_requested := false, shuffle_all := false,
           current_show := none, welcome_looping := true }

/-- The fresh loop-local state of run_jukebox (lines 246-248). -/
def initLS (j : JState) : LoopState :=
  { j := j, skip_pressed_time := none, key_pressed_times := [],
    broke := false }

def DEVICE_MISSING_MSG : String := "DEVICE MISSING: Check USB connection"

/-- play_error_video (lines 125-145): when the error pool has a file,
play it with the reason as osd and wait until the player exits; with no
error directory or no files, only print. -/
def play_error_video (pool : List String) (n : Nat) (reason : String)
    (j : JState) : JState :=
  match choice n pool with
  | none => j
  | some f =>
    let j2 := play_videoJ ("error-videos", f) (some reason) false j
    match j2.procs.current_process with
    | some p =>
      { j2 with procs := { j2.procs with alive := j2.procs.alive.erase p } }
    | none => j2

/-- The external inputs of one run_jukebox call: whether the device path
exists, whether InputDevice raises (with the exception text), the random
index for an error clip, and the event stream. -/
structure SessionInput where
  deviceOk : Bool
  openError : Option String
  errRand : Nat
  events : List Ev
deriving Repr, DecidableEq

/-- run_jukebox (lines 216-295): reset the globals; on a missing or
unopenable device play the error clip and return False; otherwise fold
the read loop over the event stream and return True. -/
def run_jukebox (lib : Lib) (pool : List String) (inp : SessionInput)
    (j : JState) : JState × Bool :=
  let j1 := session_reset j
  if inp.deviceOk then
    match inp.openError with
    | some e =>
      (play_error_video pool inp.errRand ("DEVICE ERROR: " ++ e) j1, false)
    | none =>
      ((inp.events.foldl (loop_step lib) (initLS j1)).j, true)
  else
    (play_error_video pool inp.errRand DEVICE_MISSING_MSG j1, false)

/-- Outcome of the while-True wrapper in main over finitely many session
inputs. -/
inductive MainOutcome where
  | fatalExit (code : Nat)
  | ranAll
deriving Repr, DecidableEq

/-- main (lines 297-305): run sessions in a loop; a False result exits
the program with code 1, a True result restarts.  Returns the outcome and
how many sessions ran. -/
def mainRun (lib : Lib) (pool : List String) :
    JState → List SessionInput → MainOutcome × Nat
  | _, [] => (MainOutcome.ranAll, 0)
  | j, inp :: rest =>
    let r := run_jukebox lib pool inp j
    if r.2 then
      let o := mainRun lib pool r.1 rest
      (o.1, o.2 + 1)
    else (MainOutcome.fatalExit 1, 1)

lemma procInv_init : ProcInv procInit := Or.inl rfl

lemma stop_of_procInv {s : ProcState} (h : ProcInv s) :
    (stop_current_video s).alive = [] ∧
      (stop_current_video s).current_process = none := by
  rcases h with h | ⟨p, ha, hc⟩
  · refine ⟨?_, rfl⟩
    cases hcur : s.current_process <;> simp [stop_current_video, hcur, h]
  · refine ⟨?_, rfl⟩
    simp [stop_current_video, ha, hc, List.erase_cons]

lemma procInv_stop {s : ProcState} (h : ProcInv s) :
    ProcInv (stop_current_video s) :=
  Or.inl (stop_of_procInv h).1

lemma procInv_play {s : ProcState} (h : ProcInv s) :
    ProcInv (play_video s) := by
  refine Or.inr ⟨(stop_current_video s).nextPid, ?_, rfl⟩
  simp [play_video, (stop_of_procInv h).1]

lemma procInv_applyOp {s : ProcState} (op : SessionOp) (h : ProcInv s) :
    ProcInv (applySessionOp s op) := by
  cases op
  · exact procInv_play h
  · exact procInv_stop h

lemma foldl_preserve {α β : Type} {P : β → Prop} (f : β → α → β)
    (hstep : ∀ s a, P s → P (f s a)) :
    ∀ (l : List α) (s : β), P s → P (l.foldl f s)
  | [], _, hs => hs
  | a :: l, s, hs => foldl_preserve f hstep l (f s a) (hstep s a hs)

lemma procInv_foldl (ops : List SessionOp) :
    ProcInv (ops.foldl applySessionOp procInit) :=
  foldl_preserve applySessionOp (fun _ op hs => procInv_applyOp op hs)
    ops procInit procInv_init

lemma procInv_length_le {s : ProcState} (h : ProcInv s) :
    s.alive.length ≤ 1 := by
  rcases h with h | ⟨p, ha, _⟩
  · simp [h]
  · simp [ha]

/-- C2: after any sequence of start (play_video) and stop
(stop_current_video) calls from the initial empty session, at most one
child playback process is live: the live set has length 0 or 1, every
start stops the previous process first (the state it spawns into has an
empty live set), and the live set is always exactly the current handle or
empty. -/
theorem at_most_one_live_process (ops : List SessionOp) :
    ((ops.foldl applySessionOp procInit).alive.length ≤ 1) ∧
      ((stop_current_video (ops.foldl applySessionOp procInit)).alive = []) ∧
      ((ops.foldl applySessionOp procInit).alive = [] ∨
        ∃ p, (ops.foldl applySessionOp procInit).alive = [p] ∧
          (ops.foldl applySessionOp procInit).current_process = some p) :=
  ⟨procInv_length_le (procInv_foldl ops),
   (stop_of_procInv (procInv_foldl ops)).1,
   procInv_foldl ops⟩

/-- C9: stop_current_video is idempotent — a second stop right after a
first changes nothing (in particular it raises no error on an
already-stopped or already-exited child), and after any stop call the
session holds no running process handle. -/
theorem stop_idempotent (s : ProcState) :
    stop_current_video (stop_current_video s) = stop_current_video s ∧
      (stop_current_video s).current_process = none := by
  constructor
  · cases s with
    | mk n a c => cases c <;> simp [stop_current_video]
  · rfl

/-- C1: for a matched SKIP down/up pair of duration d, the classifier
yields very-long when 2 ≤ d, long when 0.75 ≤ d < 2, and short when
d < 0.75; for any other mapped key the single boolean test is long iff
0.75 ≤ d — there is no very-long tier for non-switch keys. -/
theorem skip_press_classification (d : ℚ) :
    ((2 : ℚ) ≤ d → classify_skip d = PressClass.veryLong) ∧
      ((3 / 4 : ℚ) ≤ d ∧ d < 2 → classify_skip d = PressClass.long) ∧
      (d < (3 / 4 : ℚ) → classify_skip d = PressClass.short) ∧
      (long_press d = true ↔ (3 / 4 : ℚ) ≤ d) := by
  refine ⟨fun h => ?_, fun h => ?_, fun h => ?_, ?_⟩
  · simp [classify_skip, LONGER_PRESS_SECONDS, h]
  · simp [classify_skip, LONGER_PRESS_SECONDS, LONG_PRESS_SECONDS,
      not_le.mpr h.2, h.1]
  · have h1 : ¬ ((2 : ℚ) ≤ d) := by
      intro h2
      exact absurd (lt_of_lt_of_le h (by norm_num)) (not_lt.mpr h2)
    simp [classify_skip, LONGER_PRESS_SECONDS, LONG_PRESS_SECONDS, h1,
      not_le.mpr h]
  · simp [long_press, LONG_PRESS_SECONDS]

/-- Witness for C1 at concrete durations 2.5, 1 and 0.5 seconds. -/
theorem skip_press_classification_witness :
    classify_skip (5 / 2) = PressClass.veryLong ∧
      classify_skip 1 = PressClass.long ∧
      classify_skip (1 / 2) = PressClass.short ∧
      long_press 1 = true := by
  refine ⟨(skip_press_classification (5 / 2)).1 (by norm_num),
    (skip_press_classification 1).2.1 (by norm_num),
    (skip_press_classification (1 / 2)).2.2.1 (by norm_num),
    ((skip_press_classification 1).2.2.2).mpr (by norm_num)⟩

lemma next_episode_flags (lib : Lib) (n : Nat) (osd : Option String)
    (j : JState) :
    (next_episode lib n osd j).shuffle_all = j.shuffle_all ∧
      (next_episode lib n osd j).current_show = j.current_show ∧
      (next_episode lib n osd j).welcome_looping = j.welcome_looping ∧
      (next_episode lib n osd j).exit_requested = j.exit_requested ∧
      (next_episode lib n osd j).diags = j.diags := by
  unfold next_episode
  split
  · split <;> simp [play_videoJ]
  · split
    · split <;> simp [play_videoJ]
    · simp

lemma next_episode_shuffle_all (lib : Lib) (n : Nat) (osd : Option String)
    (j : JState) :
    (next_episode lib n osd j).shuffle_all = j.shuffle_all :=
  (next_episode_flags lib n osd j).1

lemma next_episode_current_show (lib : Lib) (n : Nat) (osd : Option String)
    (j : JState) :
    (next_episode lib n osd j).current_show = j.current_show :=
  (next_episode_flags lib n osd j).2.1

lemma next_episode_diags (lib : Lib) (n : Nat) (osd : Option String)
    (j : JState) :
    (next_episode lib n osd j).diags = j.diags :=
  (next_episode_flags lib n osd j).2.2.2.2

lemma handle_key_press_diags (lib : Lib) (n code : Nat) (lp : Bool)
    (j : JState) (h : (KEY_MAP.lookup code).isSome = true) :
    (handle_key_press lib n code lp j).diags = j.diags := by
  unfold handle_key_press
  rcases hm : KEY_MAP.lookup code with _ | b
  · rw [hm] at h
    simp at h
  · cases b
    · simp
    · simp [next_episode_diags]

lemma handle_key_press_mode_inv (lib : Lib) (n code : Nat) (lp : Bool)
    (j : JState) (h : j.shuffle_all = true → j.current_show = none) :
    (handle_key_press lib n code lp j).shuffle_all = true →
      (handle_key_press lib n code lp j).current_show = none := by
  unfold handle_key_press
  rcases hm : KEY_MAP.lookup code with _ | b
  · simpa using h
  · cases b
    · simpa using h
    · simp [next_episode_shuffle_all, next_episode_current_show]

/-- The exactly-one-mode predicate on flag states: shuffle_all and a
selected current show are never set together. -/
lemma loop_step_mode_inv (lib : Lib) (ls : LoopState) (e : Ev)
    (h : ls.j.shuffle_all = true → ls.j.current_show = none) :
    (loop_step lib ls e).j.shuffle_all = true →
      (loop_step lib ls e).j.current_show = none := by
  unfold loop_step
  repeat' split
  all_goals try exact h
  all_goals try simpa using h
  all_goals try simp [next_episode_shuffle_all, next_episode_current_show]
  all_goals first
    | (by_cases hsa : ls.j.shuffle_all = true
       · simp only [hsa, if_true]
         intro _
         simpa [next_episode_current_show] using h hsa
       · simp only [hsa, if_false]
         rcases hcs : ls.j.current_show with _ | sh
         · intro hs
           exact absurd (by simpa using hs) hsa
         · intro hs
           exact absurd (by simpa [next_episode_shuffle_all] using hs) hsa)
    | (rcases hpt : (pop_key_time e.code ls.key_pressed_times).1 with _ | t
       · simpa using h
       · by_cases ht0 : t = 0
         · simp only [ht0]
           simpa using h
         · simp only [ht0]
           intro hs
           have hk := handle_key_press_mode_inv lib e.rand e.code
             (long_press (e.time - t)) ls.j h
           simpa using hk (by simpa using hs))

/-- C7: in every loop state reachable from a fresh session through the
event loop, the mode flags never encode two modes at once: shuffle_all is
never set while a current show is selected. -/
theorem single_mode_invariant (lib : Lib) (j : JState) (es : List Ev) :
    (((es.foldl (loop_step lib) (initLS (session_reset j))).j.shuffle_all &&
      (es.foldl (loop_step lib)
        (initLS (session_reset j))).j.current_show.isSome) = false) := by
  have key := foldl_preserve (loop_step lib)
    (fun ls e hls => loop_step_mode_inv lib ls e hls) es
    (initLS (session_reset j)) (by simp [initLS, session_reset])
  rcases hs : (es.foldl (loop_step lib)
      (initLS (session_reset j))).j.shuffle_all with _ | _
  · simp
  · simp [key (by rw [hs])]

lemma loop_step_diags (lib : Lib) (ls : LoopState) (e : Ev) :
    (loop_step lib ls e).j.diags = ls.j.diags := by
  unfold loop_step
  repeat' split
  all_goals try rfl
  all_goals try simp [next_episode_diags]
  all_goals first
    | (by_cases hsa : ls.j.shuffle_all = true
       · simp [hsa, next_episode_diags]
       · simp only [hsa, if_false]
         rcases hcs : ls.j.current_show with _ | sh <;>
           simp [next_episode_diags])
    | (have hiso : (KEY_MAP.lookup e.code).isSome = true := by simp_all
       rcases hpt : (pop_key_time e.code ls.key_pressed_times).1 with _ | t
       · simp only [hpt]
       · by_cases ht0 : t = 0
         · simp only [hpt, ht0]
           simp
         · simp only [hpt, ht0]
           simp [handle_key_press_diags lib e.rand e.code
             (long_press (e.time - t)) ls.j hiso])

/-- C10: the unknown-key diagnostic branch of handle_key_press is
unreachable from the event loop — along every event sequence from a fresh
session the diagnostic log never grows, because the loop only hands
mapped non-skip codes to handle_key_press; and an event whose code is
unmapped is dropped by the loop without any state change. -/
theorem unknown_key_branch_unreachable (lib : Lib) (j : JState)
    (es : List Ev) (ls : LoopState) (e : Ev) :
    ((es.foldl (loop_step lib) (initLS (session_reset j))).j.diags =
        j.diags) ∧
      (ls.broke = false → ls.j.exit_requested = false →
        KEY_MAP.lookup e.code = none → loop_step lib ls e = ls) := by
  constructor
  · exact foldl_preserve (loop_step lib)
      (fun s e2 (hs : s.j.diags = j.diags) =>
        (loop_step_diags lib s e2).trans hs)
      es (initLS (session_reset j)) rfl
  · intro hb he hm
    unfold loop_step
    simp [hb, he, hm]

/-- Witness for C10: an EV_KEY event with unmapped code 10 leaves the
fresh loop state untouched. -/
theorem unknown_key_branch_unreachable_witness :
    loop_step [] (initLS (session_reset jInit)) ⟨true, 10, 1, 1, 0⟩ =
      initLS (session_reset jInit) :=
  (unknown_key_branch_unreachable [] jInit []
    (initLS (session_reset jInit)) ⟨true, 10, 1, 1, 0⟩).2 rfl rfl rfl

lemma choice_mem {α : Type} (n : Nat) {l : List α} (h : l ≠ []) :
    ∃ a, a ∈ l ∧ choice n l = some a := by
  have hlen : 0 < l.length := List.length_pos.mpr h
  have hlt : n % l.length < l.length := Nat.mod_lt _ hlen
  exact ⟨l[n % l.length], List.getElem_mem hlt,
    by simp [choice, List.getElem?_eq_getElem hlt]⟩

/-- C6: the watchdog tick is a no-op while the welcome loop is active,
once termination has been signalled, when no current process exists
(explicit stop), and while the current process is still running; and when
the current process has exited on its own, with the mode a single-show
shuffle with a non-empty episode set, one tick starts a new episode of
that show. -/
theorem watchdog_only_on_natural_end (lib : Lib) (n : Nat) (j : JState) :
    (j.welcome_looping = true → monitor_video_end_tick lib n j = j) ∧
      (j.exit_requested = true → monitor_video_end_tick lib n j = j) ∧
      (j.procs.current_process = none →
        monitor_video_end_tick lib n j = j) ∧
      (∀ p, j.procs.current_process = some p → p ∈ j.procs.alive →
        monitor_video_end_tick lib n j = j) ∧
      (∀ p sh, j.exit_requested = false → j.welcome_looping = false →
        j.procs.current_process = some p → p ∉ j.procs.alive →
        j.shuffle_all = false → j.current_show = some sh →
        get_episodes lib sh ≠ [] →
        ∃ ep, ep ∈ get_episodes lib sh ∧
          monitor_video_end_tick lib n j =
            play_videoJ ep (some ("|SHUFFLE| " ++ sh)) false j) := by
  refine ⟨?_, ?_, ?_, ?_, ?_⟩
  · intro hw
    unfold monitor_video_end_tick
    repeat' split
    all_goals simp_all
  · intro he
    unfold monitor_video_end_tick
    simp [he]
  · intro hc
    unfold monitor_video_end_tick
    split
    · rfl
    · rw [hc]
  · intro p hc hp
    unfold monitor_video_end_tick
    split
    · rfl
    · rw [hc]
      simp [hp]
  · intro p sh he hw hc hp hs hcs hne
    obtain ⟨ep, hmem, hch⟩ := choice_mem n hne
    refine ⟨ep, hmem, ?_⟩
    simp [monitor_video_end_tick, next_episode, he, hc, hs, hcs, hw, hp,
      hch]

/-- Witness for C6: with show Cheers holding one episode and a dead
current process, one watchdog tick starts a Cheers episode. -/
theorem watchdog_only_on_natural_end_witness :
    ∃ ep, ep ∈ get_episodes [("Cheers", ["c1.mp4"])] "Cheers" ∧
      monitor_video_end_tick [("Cheers", ["c1.mp4"])] 0
          { procs := ⟨1, [], some 0⟩, played := [], shuffle_all := false,
            current_show := some "Cheers", welcome_looping := false,
            exit_requested := false, diags := [] } =
        play_videoJ ep (some ("|SHUFFLE| " ++ "Cheers")) false
          { procs := ⟨1, [], some 0⟩, played := [], shuffle_all := false,
            current_show := some "Cheers", welcome_looping := false,
            exit_requested := false, diags := [] } :=
  (watchdog_only_on_natural_end [("Cheers", ["c1.mp4"])] 0
      { procs := ⟨1, [], some 0⟩, played := [], shuffle_all := false,
        current_show := some "Cheers", welcome_looping := false,
        exit_requested := false, diags := [] }).2.2.2.2 0 "Cheers"
    rfl rfl rfl (by simp) rfl rfl (by simp [get_episodes])

/-- C3 counterexample: pressing key 2 (short) while the welcome loop runs,
with an empty library, starts no playback — but the flag state is NOT
left unchanged: the welcome-looping flag is cleared and the current show
is set to the selected (empty) show. -/
theorem key_press_empty_show_flags_cex :
    (handle_key_press [] 0 2 false (session_reset jInit)).welcome_looping
        = false ∧
      (session_reset jInit).welcome_looping = true ∧
      (handle_key_press [] 0 2 false
        (session_reset jInit)).current_show = some "The Simpsons" ∧
      (session_reset jInit).current_show = none ∧
      (handle_key_press [] 0 2 false (session_reset jInit)).played =
        (session_reset jInit).played ∧
      (handle_key_press [] 0 2 false (session_reset jInit)).procs =
        (session_reset jInit).procs :=
  ⟨rfl, rfl, rfl, rfl, rfl, rfl⟩

/-- C3 (amended): a key action selecting a show whose episode set is
empty starts no playback (no launch is logged, no process is spawned),
but the mode flags are updated to the selection — welcome looping is
cleared, the chosen show becomes current, shuffle-all is cleared; and
selecting shuffle-all over an empty library likewise plays nothing. -/
theorem empty_selection_no_playback (lib : Lib) (n code : Nat) (lp : Bool)
    (j : JState) (sh lo : String)
    (hmap : KEY_MAP.lookup code = some (Binding.showPair sh lo))
    (hempty : get_episodes lib (if lp then lo else sh) = []) :
    ((handle_key_press lib n code lp j).played = j.played ∧
      (handle_key_press lib n code lp j).procs = j.procs ∧
      (handle_key_press lib n code lp j).welcome_looping = false ∧
      (handle_key_press lib n code lp j).current_show =
        some (if lp then lo else sh) ∧
      (handle_key_press lib n code lp j).shuffle_all = false) ∧
      (∀ (lib2 : Lib) (m : Nat) (osd : Option String) (j2 : JState),
        j2.shuffle_all = true → all_episodes lib2 = [] →
        next_episode lib2 m osd j2 = j2) := by
  have hchoice : choice n (get_episodes lib (if lp then lo else sh))
      = none := by
    rw [hempty]
    simp [choice]
  have hkey : handle_key_press lib n code lp j =
      { j with welcome_looping := false,
               current_show := some (if lp then lo else sh),
               shuffle_all := false } := by
    unfold handle_key_press
    rw [hmap]
    unfold next_episode
    simp [hchoice]
  constructor
  · rw [hkey]
    exact ⟨rfl, rfl, rfl, rfl, rfl⟩
  · intro lib2 m osd j2 hs he
    unfold next_episode
    simp [hs, he, choice]

/-- Witness for the amended C3: key 2, short press, over an empty
library. -/
theorem empty_selection_no_playback_witness :
    ((handle_key_press [] 0 2 false (session_reset jInit)).played =
        (session_reset jInit).played ∧
      (handle_key_press [] 0 2 false (session_reset jInit)).procs =
        (session_reset jInit).procs ∧
      (handle_key_press [] 0 2 false
        (session_reset jInit)).welcome_looping = false ∧
      (handle_key_press [] 0 2 false (session_reset jInit)).current_show =
        some (if false then "Futurama" else "The Simpsons") ∧
      (handle_key_press [] 0 2 false (session_reset jInit)).shuffle_all =
        false) ∧
      (∀ (lib2 : Lib) (m : Nat) (osd : Option String) (j2 : JState),
        j2.shuffle_all = true → all_episodes lib2 = [] →
        next_episode lib2 m osd j2 = j2) :=
  empty_selection_no_playback [] 0 2 false (session_reset jInit)
    "The Simpsons" "Futurama" rfl rfl

lemma play_error_video_played (pool : List String) (n : Nat)
    (reason : String) (j : JState) {f : String}
    (h : choice n pool = some f) :
    (play_error_video pool n reason j).played =
      j.played ++ [⟨("error-videos", f), some reason, false⟩] := by
  unfold play_error_video
  rw [h]
  simp [play_videoJ, play_video]

/-- C5: when the input device is missing at session start, run_jukebox
plays one error clip captioned with the device-missing reason and reports
failure; main then exits with code 1 after that single session, with no
restart, whatever sessions would have followed — while any session whose
device opens fine reports success (the recoverable path that main does
restart). -/
theorem device_missing_fatal_no_restart (lib : Lib) (pool : List String)
    (j : JState) (er : Nat) (oe : Option String) (es : List Ev)
    (rest : List SessionInput) (hpool : pool ≠ []) :
    ((run_jukebox lib pool ⟨false, oe, er, es⟩ j).2 = false) ∧
      (∃ f, f ∈ pool ∧
        (run_jukebox lib pool ⟨false, oe, er, es⟩ j).1.played =
          j.played ++
            [⟨("error-videos", f), some DEVICE_MISSING_MSG, false⟩]) ∧
      (mainRun lib pool j (⟨false, oe, er, es⟩ :: rest) =
        (MainOutcome.fatalExit 1, 1)) ∧
      (∀ inp2 : SessionInput, inp2.deviceOk = true →
        inp2.openError = none → (run_jukebox lib pool inp2 j).2 = true) := by
  obtain ⟨f, hf, hch⟩ := choice_mem er hpool
  refine ⟨rfl, ⟨f, hf, ?_⟩, ?_, ?_⟩
  · show (play_error_video pool er DEVICE_MISSING_MSG
        (session_reset j)).played = _
    rw [play_error_video_played pool er DEVICE_MISSING_MSG
      (session_reset j) hch]
    rfl
  · rfl
  · intro inp2 h1 h2
    cases inp2
    simp_all [run_jukebox]

/-- Witness for C5 with a one-clip error pool. -/
theorem device_missing_fatal_no_restart_witness :
    ((run_jukebox [] ["sad.mp4"] ⟨false, none, 0, []⟩ jInit).2 = false) ∧
      (∃ f, f ∈ ["sad.mp4"] ∧
        (run_jukebox [] ["sad.mp4"] ⟨false, none, 0, []⟩ jInit).1.played =
          jInit.played ++
            [⟨("error-videos", f), some DEVICE_MISSING_MSG, false⟩]) ∧
      (mainRun [] ["sad.mp4"] jInit [⟨false, none, 0, []⟩] =
        (MainOutcome.fatalExit 1, 1)) ∧
      (∀ inp2 : SessionInput, inp2.deviceOk = true →
        inp2.openError = none →
        (run_jukebox [] ["sad.mp4"] inp2 jInit).2 = true) :=
  device_missing_fatal_no_restart [] ["sad.mp4"] jInit 0 none [] []
    (by simp)

/-- C4: a very-long press of the SKIP key clears both shuffle modes,
stops the playing process, and signals exit; the loop then breaks on the
next event; the session reports the recoverable outcome, so main runs one
more session on the remaining inputs; and every fresh session starts with
the welcome loop running, shuffle-all cleared and no current show. -/
theorem very_long_skip_terminates_and_restarts (lib : Lib)
    (pool : List String) (j : JState) (t u : ℚ) (es : List Ev)
    (rest : List SessionInput) (hinv : ProcInv j.procs) (ht : t ≠ 0)
    (hd : LONGER_PRESS_SECONDS ≤ u - t) :
    let e1 : Ev := ⟨true, SKIP_KEY_CODE, 1, t, 0⟩
    let e2 : Ev := ⟨true, SKIP_KEY_CODE, 0, u, 0⟩
    let ls2 := loop_step lib (loop_step lib (initLS (session_reset j)) e1) e2
    (ls2.j.exit_requested = true ∧ ls2.j.procs.alive = [] ∧
      ls2.j.procs.current_process = none ∧ ls2.j.shuffle_all = false ∧
      ls2.j.current_show = none ∧ ls2.j.played = j.played) ∧
      (∀ e3 : Ev, (loop_step lib ls2 e3).broke = true) ∧
      ((run_jukebox lib pool ⟨true, none, 0, e1 :: e2 :: es⟩ j).2 = true) ∧
      ((mainRun lib pool j (⟨true, none, 0, e1 :: e2 :: es⟩ :: rest)).2 =
        (mainRun lib pool
          (run_jukebox lib pool ⟨true, none, 0, e1 :: e2 :: es⟩ j).1
          rest).2 + 1) ∧
      (∀ j2 : JState, (session_reset j2).welcome_looping = true ∧
        (session_reset j2).shuffle_all = false ∧
        (session_reset j2).current_show = none ∧
        (session_reset j2).exit_requested = false) := by
  intro e1 e2 ls2
  have hcl : classify_skip (u - t) = PressClass.veryLong := by
    unfold classify_skip
    rw [if_pos hd]
  have h1 : loop_step lib (initLS (session_reset j)) e1 =
      { initLS (session_reset j) with skip_pressed_time := some t } := by
    simp [loop_step, initLS, session_reset, SKIP_KEY_CODE, KEY_MAP,
      List.lookup]
  have h2 : ls2 =
      ⟨⟨stop_current_video j.procs, j.played, false, none, true, true,
        j.diags⟩, none, [], false⟩ := by
    show loop_step lib (loop_step lib (initLS (session_reset j)) e1) e2 = _
    rw [h1]
    simp [loop_step, initLS, session_reset, SKIP_KEY_CODE, KEY_MAP,
      List.lookup, ht, hcl]
  refine ⟨?_, ?_, rfl, rfl, fun j2 => ⟨rfl, rfl, rfl, rfl⟩⟩
  · rw [h2]
    exact ⟨rfl, (stop_of_procInv hinv).1, rfl, rfl, rfl, rfl⟩
  · intro e3
    rw [h2]
    rfl

/-- Witness for C4: SKIP held from time 1 to time 3 (2 s). -/
theorem very_long_skip_terminates_and_restarts_witness :
    let e1 : Ev := ⟨true, SKIP_KEY_CODE, 1, 1, 0⟩
    let e2 : Ev := ⟨true, SKIP_KEY_CODE, 0, 3, 0⟩
    let ls2 := loop_step [] (loop_step [] (initLS (session_reset jInit)) e1) e2
    (ls2.j.exit_requested = true ∧ ls2.j.procs.alive = [] ∧
      ls2.j.procs.current_process = none ∧ ls2.j.shuffle_all = false ∧
      ls2.j.current_show = none ∧ ls2.j.played = jInit.played) ∧
      (∀ e3 : Ev, (loop_step [] ls2 e3).broke = true) ∧
      ((run_jukebox [] [] ⟨true, none, 0, e1 :: e2 :: []⟩ jInit).2 = true) ∧
      ((mainRun [] [] jInit (⟨true, none, 0, e1 :: e2 :: []⟩ :: [])).2 =
        (mainRun [] []
          (run_jukebox [] [] ⟨true, none, 0, e1 :: e2 :: []⟩ jInit).1
          []).2 + 1) ∧
      (∀ j2 : JState, (session_reset j2).welcome_looping = true ∧
        (session_reset j2).shuffle_all = false ∧
        (session_reset j2).current_show = none ∧
        (session_reset j2).exit_requested = false) :=
  very_long_skip_terminates_and_restarts [] [] jInit 1 3 [] []
    (Or.inl rfl) (by norm_num) (by norm_num [LONGER_PRESS_SECONDS])

lemma lookup_eq_of_nodup {lib : Lib} {se : String × List String}
    (hnd : (lib.map Prod.fst).Nodup) (hmem : se ∈ lib) :
    lib.lookup se.1 = some se.2 := by
  induction lib with
  | nil => cases hmem
  | cons a t ih =>
    obtain ⟨a1, a2⟩ := a
    rw [List.map_cons, List.nodup_cons] at hnd
    rcases List.mem_cons.mp hmem with h | h
    · rw [h]
      simp [List.lookup_cons]
    · have hmt := List.mem_map_of_mem Prod.fst h
      have hne : ¬ se.1 = a1 := fun heq => hnd.1 (heq ▸ hmt)
      rw [List.lookup_cons]
      have : (se.1 == a1) = false := beq_eq_false_iff_ne.mpr hne
      rw [this]
      exact ih hnd.2 h

lemma flatMap_congr_mem {α β : Type} {l : List α} {f g : α → List β}
    (h : ∀ a ∈ l, f a = g a) : l.flatMap f = l.flatMap g := by
  induction l with
  | nil => rfl
  | cons a t ih =>
    rw [List.flatMap_cons, List.flatMap_cons, h a (List.mem_cons_self a t),
      ih (fun b hb => h b (List.mem_cons_of_mem a hb))]

lemma all_episodes_eq {lib : Lib} (hnd : (lib.map Prod.fst).Nodup) :
    all_episodes lib =
      lib.flatMap (fun se => se.2.map (fun f => (se.1, f))) := by
  unfold all_episodes
  refine flatMap_congr_mem (fun se hse => ?_)
  unfold get_episodes
  rw [lookup_eq_of_nodup hnd hse]
  rfl

lemma flatMap_pairs_length (l : Lib) :
    (l.flatMap (fun se => se.2.map (fun f => (se.1, f)))).length =
      (l.map (fun x => x.2.length)).sum := by
  induction l with
  | nil => rfl
  | cons a t ih => simp [List.flatMap_cons, ih]

lemma countP_flatMap_pairs_zero {s : String} (t : Lib)
    (hns : s ∉ t.map Prod.fst) :
    (t.flatMap (fun x => x.2.map (fun f => (x.1, f)))).countP
      (fun ep => ep.1 == s) = 0 := by
  induction t with
  | nil => rfl
  | cons a r ih =>
    rw [List.map_cons, List.mem_cons] at hns
    push_neg at hns
    rw [List.flatMap_cons, List.countP_append]
    have hc : (a.2.map (fun f => (a.1, f))).countP
        (fun ep => ep.1 == s) = 0 := by
      rw [List.countP_map]
      have : (a.1 == s) = false := beq_eq_false_iff_ne.mpr
        (fun he => hns.1 he.symm)
      simp [Function.comp, this]
    rw [hc, ih hns.2]

lemma countP_flatMap_pairs {lib : Lib} {se : String × List String}
    (hnd : (lib.map Prod.fst).Nodup) (hmem : se ∈ lib) :
    (lib.flatMap (fun x => x.2.map (fun f => (x.1, f)))).countP
      (fun ep => ep.1 == se.1) = se.2.length := by
  induction lib with
  | nil => cases hmem
  | cons a t ih =>
    rw [List.map_cons, List.nodup_cons] at hnd
    rw [List.flatMap_cons, List.countP_append]
    rcases List.mem_cons.mp hmem with rfl | h
    · rw [countP_flatMap_pairs_zero t hnd.1, List.countP_map]
      simp
    · have hmt : se.1 ∈ t.map Prod.fst := List.mem_map_of_mem Prod.fst h
      have hne : (a.1 == se.1) = false :=
        beq_eq_false_iff_ne.mpr (fun he => hnd.1 (by rw [he]; exact hmt))
      rw [List.countP_map]
      have hc0 : a.2.countP
          ((fun ep => ep.1 == se.1) ∘ (fun f => (a.1, f))) = 0 := by
        simp [Function.comp, hne]
      rw [hc0, ih hnd.2 h]
      exact Nat.zero_add _

/-- C8: in shuffle-all mode the candidate pool is the concatenation of
the episode list of every show, so its length is the sum of the episode
counts, each show contributes exactly its own episode count to the pool,
the modular random index hits each pool position exactly once (uniform
over the union, hence a show with e of Σe episodes is drawn with
probability e/Σe), and an empty union plays nothing. -/
theorem all_shuffle_uniform_over_union (lib : Lib)
    (se : String × List String) (hnd : (lib.map Prod.fst).Nodup)
    (hmem : se ∈ lib) :
    ((all_episodes lib).length = (lib.map (fun x => x.2.length)).sum) ∧
      ((all_episodes lib).countP (fun ep => ep.1 == se.1) =
        se.2.length) ∧
      (∀ m : Nat, m < (all_episodes lib).length →
        choice m (all_episodes lib) = (all_episodes lib)[m]?) ∧
      (∀ (m : Nat) (osd : Option String) (j2 : JState),
        j2.shuffle_all = true → all_episodes lib = [] →
        next_episode lib m osd j2 = j2) := by
  refine ⟨?_, ?_, ?_, ?_⟩
  · rw [all_episodes_eq hnd, flatMap_pairs_length]
  · rw [all_episodes_eq hnd]
    exact countP_flatMap_pairs hnd hmem
  · intro m hm
    unfold choice
    rw [Nat.mod_eq_of_lt hm]
  · intro m osd j2 hs he
    unfold next_episode
    simp [hs, he, choice]

/-- Witness for C8: shows A (2 episodes) and B (1 episode). -/
theorem all_shuffle_uniform_over_union_witness :
    ((all_episodes [("A", ["a1", "a2"]), ("B", ["b1"])]).length =
        ([("A", ["a1", "a2"]), ("B", ["b1"])].map
          (fun x => x.2.length)).sum) ∧
      ((all_episodes [("A", ["a1", "a2"]), ("B", ["b1"])]).countP
          (fun ep => ep.1 == ("A", ["a1", "a2"]).1) =
        ("A", ["a1", "a2"]).2.length) ∧
      (∀ m : Nat,
        m < (all_episodes [("A", ["a1", "a2"]), ("B", ["b1"])]).length →
        choice m (all_episodes [("A", ["a1", "a2"]), ("B", ["b1"])]) =
          (all_episodes [("A", ["a1", "a2"]), ("B", ["b1"])])[m]?) ∧
      (∀ (m : Nat) (osd : Option String) (j2 : JState),
        j2.shuffle_all = true →
        all_episodes [("A", ["a1", "a2"]), ("B", ["b1"])] = [] →
        next_episode [("A", ["a1", "a2"]), ("B", ["b1"])] m osd j2 = j2) :=
  all_shuffle_uniform_over_union [("A", ["a1", "a2"]), ("B", ["b1"])]
    ("A", ["a1", "a2"]) (by simp) (by simp)

end TVJuke
